import Mathlib

/-!
Verification of the Silver-layer enrichment engine: the state-hours
classifier (state_hours.py) and the wafer-production calculator
(wafer_production.py). The Python code is shallowly embedded: pandas rows
become association lists from field name to optional rational value
(None models NaN), and each method becomes a total Lean function.
-/

namespace EntityCounters

/-! ## String helpers

Python substring containment (`keyword in col`) and suffix test
(`col.endswith("Counter")`), modelled over character lists. -/

/-- Boolean prefix test on character lists. -/
def listPrefixOf : List Char → List Char → Bool
  | [], _ => true
  | _ :: _, [] => false
  | a :: as, b :: bs => a == b && listPrefixOf as bs

/-- Boolean infix (substring) test: does `pat` occur inside the list. -/
def listInfixOf (pat : List Char) : List Char → Bool
  | [] => pat.isEmpty
  | b :: bs => listPrefixOf pat (b :: bs) || listInfixOf pat bs

/-- Python `pat in s` substring containment. -/
def strContainsSub (s pat : String) : Bool :=
  listInfixOf pat.toList s.toList

/-- Python `s.endswith(suf)`. -/
def strEndsWith (s suf : String) : Bool :=
  listPrefixOf suf.toList.reverse s.toList.reverse

/-! ## Counter Discovery (wafer_production.py, find_counter_column)

A row of counter data is an ordered association list from field name to
optional value; `none` models a missing value (NaN). -/

/-- Ordered fields of one counter row: field name to optional value. -/
abbrev Fields := List (String × Option ℚ)

/-- The filter from `find_counter_column`: the field name contains the
keyword as a substring and ends with the literal suffix Counter. -/
def isCandidate (kw : String) (f : String × Option ℚ) : Bool :=
  strContainsSub f.1 kw && strEndsWith f.1 "Counter"

/-- The inner loop of `find_counter_column`: first field in the filtered
list whose value is present (`pd.notna`) and strictly greater than 0. -/
def firstPositive : Fields → Option (String × ℚ)
  | [] => none
  | (c, v?) :: rest =>
    match v? with
    | some v => if 0 < v then some (c, v) else firstPositive rest
    | none => firstPositive rest

/-- `WaferProductionCalculator.find_counter_column`: iterate keywords in
priority order; for each keyword filter the candidate columns and return
the first one with a present, strictly positive value. -/
def find_counter_column (fields : Fields) : List String → Option (String × ℚ × String)
  | [] => none
  | kw :: rest =>
    match firstPositive (fields.filter (isCandidate kw)) with
    | some (c, v) => some (c, v, kw)
    | none => find_counter_column fields rest

/-- Modelled from the words of the spec for comparison: for each keyword in
priority order, consider exactly the fields whose name contains the keyword
and ends with the suffix Counter, and take the first (in row order) whose
value is present and strictly greater than 0. -/
def find_counter_column_specside (fields : Fields) : List String → Option (String × ℚ × String)
  | [] => none
  | kw :: rest =>
    match fields.find? (fun f => isCandidate kw f &&
        (match f.2 with | some v => decide (0 < v) | none => false)) with
    | some (c, some v) => some (c, v, kw)
    | some (_, none) => find_counter_column_specside fields rest
    | none => find_counter_column_specside fields rest

lemma firstPositive_eq_find? (fields : Fields) :
    firstPositive fields =
      (fields.find? (fun f =>
        match f.2 with | some v => decide (0 < v) | none => false)).bind
        (fun f => match f.2 with | some v => some (f.1, v) | none => none) := by
  induction fields with
  | nil => rfl
  | cons f rest ih =>
    obtain ⟨c, v?⟩ := f
    cases v? with
    | none => simpa [firstPositive, List.find?] using ih
    | some v =>
      by_cases h : 0 < v
      · simp [firstPositive, List.find?, h]
      · simpa [firstPositive, List.find?, h] using ih

lemma find?_filter_eq (p q : α → Bool) (l : List α) :
    (l.filter p).find? q = l.find? (fun a => p a && q a) := by
  induction l with
  | nil => rfl
  | cons a l ih =>
    by_cases hp : p a
    · by_cases hq : q a
      · simp [List.filter, List.find?, hp, hq]
      · simp [List.filter, List.find?, hp, hq, ih]
    · simp [List.filter, List.find?, hp, ih]

lemma find_counter_column_eq_specside (fields : Fields) (kws : List String) :
    find_counter_column fields kws = find_counter_column_specside fields kws := by
  induction kws with
  | nil => rfl
  | cons kw rest ih =>
    have hfp := firstPositive_eq_find? (fields.filter (isCandidate kw))
    rw [find?_filter_eq] at hfp
    unfold find_counter_column find_counter_column_specside
    rw [hfp]
    rcases hfind : fields.find? (fun f => isCandidate kw f &&
        (match f.2 with | some v => decide (0 < v) | none => false)) with _ | ⟨c, v?⟩
    · simpa using ih
    · have hpos := List.find?_some hfind
      cases v? with
      | none => simp at hpos
      | some v => simp

/-! ## Production Differencer (wafer_production.py)

`calculate_wafer_production_single_row` and its helpers. A counter row
carries the entity, the date (kept abstract as a string key) and the
ordered counter fields. -/

/-- One row of counter data as handed to the calculator. -/
structure CounterRow where
  ENTITY : String
  counter_date : String
  fields : Fields
deriving Repr, DecidableEq

/-- Configuration slice used by `WaferProductionCalculator`. -/
structure WaferConfig where
  primary_keywords : List String
  fallback_keywords : List String
  replacement_threshold : ℚ
deriving Repr

/-- The result dictionary built by
`calculate_wafer_production_single_row`. -/
structure ProdResult where
  ENTITY : String
  counter_date : String
  counter_column_used : Option String
  counter_keyword_used : Option String
  counter_current_value : Option ℚ
  counter_previous_value : Option ℚ
  counter_change : Option ℚ
  part_replacement_detected : Bool
  wafers_produced : Option ℚ
  running_hours : ℚ
  wafers_per_hour : Option ℚ
  calculation_notes : List String
deriving Repr, DecidableEq

/-- Python `counter_col in previous_row.index` plus the value lookup:
`none` when the column is absent, `some none` when present but NaN. -/
def lookupField (fields : Fields) (col : String) : Option (Option ℚ) :=
  (fields.find? (fun f => f.1 == col)).map (·.2)

/-- `WaferProductionCalculator.detect_part_replacement`: strictly below
the configured negative threshold. -/
def detect_part_replacement (threshold change : ℚ) : Bool :=
  change < threshold

/-- The fallback-recovery block of
`calculate_wafer_production_single_row` (lines 231 to 249): attempted only
when the original keyword is primary; the result fields are switched to
the fallback pair only when the recomputed change is non-negative. -/
def applyFallback (cfg : WaferConfig) (current : CounterRow) (prevFields : Fields)
    (kw : String) (r : ProdResult) : ProdResult :=
  if cfg.primary_keywords.contains kw then
    match find_counter_column current.fields cfg.fallback_keywords with
    | some (fcol, fval, fkw) =>
      match lookupField prevFields fcol with
      | some (some pf) =>
        if 0 ≤ fval - pf then
          { r with counter_column_used := some fcol
                   counter_keyword_used := some fkw
                   counter_current_value := some fval
                   counter_previous_value := some pf
                   counter_change := some (fval - pf)
                   calculation_notes := r.calculation_notes ++ ["Used fallback counter"] }
        else r
      | _ => r
    | none => r
  else r

/-- The clamp at lines 251 to 254: if the recorded change is still
negative, set it to zero. -/
def clampChange (r : ProdResult) : ProdResult :=
  match r.counter_change with
  | some c =>
    if c < 0 then
      { r with counter_change := some 0
               calculation_notes :=
                 r.calculation_notes ++ ["Counter change set to 0 (part replacement)"] }
    else r
  | none => r

/-- Lines 256 to 266: wafers produced and wafers per hour, guarded by a
non-null non-negative change and strictly positive running hours. -/
def finalizeWafers (running_hours : ℚ) (r : ProdResult) : ProdResult :=
  match r.counter_change with
  | some c =>
    if 0 ≤ c then
      let r1 := { r with wafers_produced := some c }
      if 0 < running_hours then
        { r1 with wafers_per_hour := some (c / running_hours) }
      else
        { r1 with calculation_notes :=
            r1.calculation_notes ++ ["No running hours - cannot calculate wafers/hour"] }
    else r
  | none => r

/-- The result skeleton initialised at the top of
`calculate_wafer_production_single_row`. -/
def baseResult (current : CounterRow) (running_hours : ℚ) : ProdResult :=
  { ENTITY := current.ENTITY
    counter_date := current.counter_date
    counter_column_used := none
    counter_keyword_used := none
    counter_current_value := none
    counter_previous_value := none
    counter_change := none
    part_replacement_detected := false
    wafers_produced := none
    running_hours := running_hours
    wafers_per_hour := none
    calculation_notes := [] }

/-- `WaferProductionCalculator.calculate_wafer_production_single_row`. -/
def calculate_wafer_production_single_row (cfg : WaferConfig) (current : CounterRow)
    (previous : Option CounterRow) (running_hours : ℚ) : ProdResult :=
  let base := baseResult current running_hours
  match find_counter_column current.fields (cfg.primary_keywords ++ cfg.fallback_keywords) with
  | none =>
    { base with calculation_notes := ["No counter found with any keyword"] }
  | some (col, curVal, kw) =>
    let r1 := { base with counter_column_used := some col
                          counter_keyword_used := some kw
                          counter_current_value := some curVal }
    match previous with
    | none => { r1 with calculation_notes := ["First day - no previous value"] }
    | some prev =>
      match lookupField prev.fields col with
      | none => { r1 with calculation_notes := ["Counter not in previous row"] }
      | some none => { r1 with calculation_notes := ["Previous value is null"] }
      | some (some prevVal) =>
        let change := curVal - prevVal
        let r2 := { r1 with counter_previous_value := some prevVal
                            counter_change := some change }
        let r3 :=
          if change < 0 then
            if detect_part_replacement cfg.replacement_threshold change then
              clampChange (applyFallback cfg current prev.fields kw
                { r2 with part_replacement_detected := true
                          calculation_notes :=
                            r2.calculation_notes ++ ["Part replacement: counter reset"] })
            else r2
          else r2
        finalizeWafers running_hours r3

/-- Running-hours lookup of `calculate_for_dataframe` (lines 302 to 309):
first state row matching the entity and date, defaulting to 0 when no row
matches. The state rows are abstracted to the pair used by the lookup. -/
structure RunningHoursRow where
  ENTITY : String
  state_date : String
  running_hours : ℚ
deriving Repr, DecidableEq

/-- The exact (entity, date) match against the State Classifier output. -/
def lookupRunningHours (stateRows : List RunningHoursRow) (entity date : String) : ℚ :=
  match stateRows.find? (fun s => s.ENTITY == entity && s.state_date == date) with
  | some s => s.running_hours
  | none => 0

/-! ## State Classifier (state_hours.py)

`classify_state`, the DAY_SHIFT date parser, and the daily aggregation
pipeline `calculate_daily_state_hours`. -/

/-- The four state categories returned by `classify_state`. -/
inductive StateCat where
  | Running
  | Idle
  | Down
  | Bagged
deriving Repr, DecidableEq

/-- Configuration slice used by `StateHoursCalculator`. -/
structure StateConfig where
  running_states : List String
  idle_states : List String
  bagged_state : String
deriving Repr

/-- `StateHoursCalculator.classify_state`: a null state is Down;
otherwise the value is stripped of surrounding whitespace and compared
against the bagged name, the running set, then the idle set, with Down as
the default bucket. -/
def classify_state (cfg : StateConfig) (entity_state : Option String) : StateCat :=
  match entity_state with
  | none => StateCat.Down
  | some raw =>
    let state := raw.trim
    if state == cfg.bagged_state then StateCat.Bagged
    else if cfg.running_states.contains state then StateCat.Running
    else if cfg.idle_states.contains state then StateCat.Idle
    else StateCat.Down

/-- Modelled from the words of the amended claim for comparison: the
order bagged, running, idle, Down-default, with every comparison
performed on the whitespace-stripped value and null mapping to Down. -/
def classify_state_specside (cfg : StateConfig) (entity_state : Option String) : StateCat :=
  match entity_state with
  | none => StateCat.Down
  | some raw =>
    if raw.trim = cfg.bagged_state then StateCat.Bagged
    else if raw.trim ∈ cfg.running_states then StateCat.Running
    else if raw.trim ∈ cfg.idle_states then StateCat.Idle
    else StateCat.Down

/-! ### DAY_SHIFT date parsing (`parse_day_shift_to_date`)

The Python tries `strptime` with formats %m/%d/%Y, %m/%d/%y, %m/%d in
order on the text before the first dash, catching ValueError and falling
through. The strptime regexes accept one or two digits for month (value
1..12) and day (value 1..31), exactly four digits for %Y, exactly two for
%y (pivoting at 68), and require the whole string to be consumed; the
resulting datetime construction further requires the day to fit the month
(with %m/%d built at the default year 1900 and then moved to the current
year). -/

/-- A calendar date. -/
structure PDate where
  year : ℕ
  month : ℕ
  day : ℕ
deriving Repr, DecidableEq

/-- Gregorian leap-year rule. -/
def isLeap (y : ℕ) : Bool :=
  (y % 4 == 0 && y % 100 != 0) || y % 400 == 0

/-- Days in a month of a given year. -/
def daysInMonth (y m : ℕ) : ℕ :=
  if m == 2 then (if isLeap y then 29 else 28)
  else if m == 4 || m == 6 || m == 9 || m == 11 then 30
  else 31

/-- Maximal leading run of ASCII digits. -/
def takeDigits : List Char → List Char × List Char
  | [] => ([], [])
  | c :: rest =>
    if c.isDigit then
      let (ds, r) := takeDigits rest
      (c :: ds, r)
    else ([], c :: rest)

/-- Numeric value of a digit run. -/
def digitsVal (ds : List Char) : ℕ :=
  ds.foldl (fun n c => 10 * n + (c.toNat - 48)) 0

/-- Shared month/day front of all three formats: one or two digit month
in 1..12, a slash, one or two digit day in 1..31; returns the rest. -/
def parseMD (cs : List Char) : Option (ℕ × ℕ × List Char) :=
  let (mrun, rest1) := takeDigits cs
  if mrun.length == 0 || 2 < mrun.length then none
  else
    let m := digitsVal mrun
    if m < 1 || 12 < m then none
    else
      match rest1 with
      | '/' :: rest2 =>
        let (drun, rest3) := takeDigits rest2
        if drun.length == 0 || 2 < drun.length then none
        else
          let d := digitsVal drun
          if d < 1 || 31 < d then none
          else some (m, d, rest3)
      | _ => none

/-- Format %m/%d/%Y: exactly four year digits and end of input, then the
datetime validity check (year at least 1, day fits the month). -/
def parseFullYear (cs : List Char) : Option PDate :=
  match parseMD cs with
  | none => none
  | some (m, d, rest) =>
    match rest with
    | '/' :: ys =>
      let (yrun, tail) := takeDigits ys
      if yrun.length == 4 && tail.isEmpty then
        let y := digitsVal yrun
        if 1 ≤ y && d ≤ daysInMonth y m then some ⟨y, m, d⟩ else none
      else none
    | _ => none

/-- Format %m/%d/%y: exactly two year digits and end of input; years up
to 68 land in the 2000s, the rest in the 1900s. -/
def parseTwoDigit (cs : List Char) : Option PDate :=
  match parseMD cs with
  | none => none
  | some (m, d, rest) =>
    match rest with
    | '/' :: ys =>
      let (yrun, tail) := takeDigits ys
      if yrun.length == 2 && tail.isEmpty then
        let y2 := digitsVal yrun
        let y := if y2 ≤ 68 then 2000 + y2 else 1900 + y2
        if d ≤ daysInMonth y m then some ⟨y, m, d⟩ else none
      else none
    | _ => none

/-- Format %m/%d: end of input after the day; the datetime is first built
at the strptime default year 1900 and then moved to the current year, so
both years must accept the day. -/
def parseNoYear (currentYear : ℕ) (cs : List Char) : Option PDate :=
  match parseMD cs with
  | none => none
  | some (m, d, rest) =>
    if rest.isEmpty then
      if d ≤ daysInMonth 1900 m && d ≤ daysInMonth currentYear m then
        some ⟨currentYear, m, d⟩
      else none
    else none

/-- Python `day_shift.split('-')[0]`: the text before the first dash. -/
def datePart (s : String) : List Char :=
  s.toList.takeWhile (fun c => c ≠ '-')

/-- `StateHoursCalculator.parse_day_shift_to_date`: take the text before
the first dash and try the three formats in order. -/
def parse_day_shift_to_date (currentYear : ℕ) (day_shift : Option String) : Option PDate :=
  match day_shift with
  | none => none
  | some s =>
    match parseFullYear (datePart s) with
    | some d => some d
    | none =>
      match parseTwoDigit (datePart s) with
      | some d => some d
      | none => parseNoYear currentYear (datePart s)

/-! ### Daily aggregation (`calculate_daily_state_hours`) -/

/-- One raw EntityStates record. -/
structure StateRec where
  ENTITY : String
  FAB : String
  FAB_ENTITY : String
  ENTITY_STATE : Option String
  HOURS_IN_STATE : ℚ
  DAY_SHIFT : Option String
deriving Repr, DecidableEq

/-- One output row of daily state hours. -/
structure StateRow where
  ENTITY : String
  FAB : String
  FAB_ENTITY : String
  state_date : PDate
  running_hours : ℚ
  idle_hours : ℚ
  down_hours : ℚ
  bagged_hours : ℚ
  total_hours : ℚ
  is_bagged : Bool
deriving Repr, DecidableEq

/-- Grouping key of the pivot: (ENTITY, FAB, FAB_ENTITY, state_date). -/
abbrev GroupKey := String × String × String × PDate

/-- Byte-wise comparison of character lists, the order pandas uses on
string keys. -/
def charListLe : List Char → List Char → Bool
  | [], _ => true
  | _ :: _, [] => false
  | a :: as, b :: bs =>
    if a.toNat < b.toNat then true
    else if b.toNat < a.toNat then false
    else charListLe as bs

/-- String order for sorted group keys. -/
def strLe (s t : String) : Bool := charListLe s.toList t.toList

/-- Date order for sorted group keys. -/
def pdateLe (a b : PDate) : Bool :=
  if a.year < b.year then true
  else if b.year < a.year then false
  else if a.month < b.month then true
  else if b.month < a.month then false
  else a.day ≤ b.day

/-- Lexicographic order on grouping keys, as pandas sorts the pivot
index. -/
def keyLe (a b : GroupKey) : Bool :=
  if a.1 ≠ b.1 then strLe a.1 b.1
  else if a.2.1 ≠ b.2.1 then strLe a.2.1 b.2.1
  else if a.2.2.1 ≠ b.2.2.1 then strLe a.2.2.1 b.2.2.1
  else pdateLe a.2.2.2 b.2.2.2

/-- Insert into a sorted list. -/
def insertLe (le : α → α → Bool) (x : α) : List α → List α
  | [] => [x]
  | y :: ys => if le x y then x :: y :: ys else y :: insertLe le x ys

/-- Insertion sort. -/
def sortLe (le : α → α → Bool) (l : List α) : List α :=
  l.foldr (insertLe le) []

/-- First-occurrence deduplication (the distinct group keys). -/
def dedupFirst [DecidableEq α] : List α → List α
  | [] => []
  | x :: xs => x :: (dedupFirst xs).filter (fun y => decide (y ≠ x))

/-- Last-occurrence deduplication, the behaviour of pandas
`drop_duplicates(..., keep=last)`: an element survives exactly when no
later element shares its key. -/
def dedupKeepLast [DecidableEq κ] (key : α → κ) : List α → List α
  | [] => []
  | x :: xs =>
    if xs.any (fun y => decide (key y = key x)) then dedupKeepLast key xs
    else x :: dedupKeepLast key xs

/-- A record after date parsing and classification. -/
abbrev ClassifiedRec := StateRec × PDate × StateCat

/-- Group key of a classified record. -/
def recKey (t : ClassifiedRec) : GroupKey :=
  (t.1.ENTITY, t.1.FAB, t.1.FAB_ENTITY, t.2.1)

/-- Lines 156 to 171: parse dates, drop rows whose date could not be
parsed, classify the remaining states. -/
def classifiedRecords (cfg : StateConfig) (currentYear : ℕ)
    (records : List StateRec) : List ClassifiedRec :=
  (records.filterMap (fun r =>
      (parse_day_shift_to_date currentYear r.DAY_SHIFT).map (fun d => (r, d)))).map
    (fun p => (p.1, p.2, classify_state cfg p.1.ENTITY_STATE))

/-- Summed HOURS_IN_STATE over one group key and one category, 0 when no
record falls in the cell (the pivot fill value). -/
def catHours (classified : List ClassifiedRec) (k : GroupKey) (cat : StateCat) : ℚ :=
  ((classified.filter (fun t => decide (recKey t = k) && decide (t.2.2 = cat))).map
    (fun t => t.1.HOURS_IN_STATE)).sum

/-- One pivot row: the four category hour columns plus the derived
total_hours and is_bagged columns (lines 199 to 207). -/
def mkStateRow (k : GroupKey) (r i d b : ℚ) : StateRow :=
  { ENTITY := k.1
    FAB := k.2.1
    FAB_ENTITY := k.2.2.1
    state_date := k.2.2.2
    running_hours := r
    idle_hours := i
    down_hours := d
    bagged_hours := b
    total_hours := r + i + d + b
    is_bagged := decide (0 < b) }

/-- The pivot table: one row per distinct group key (sorted, as pandas
sorts the pivot index), with hour columns per category. -/
def pivotRows (cfg : StateConfig) (currentYear : ℕ)
    (records : List StateRec) : List StateRow :=
  let classified := classifiedRecords cfg currentYear records
  let keys := sortLe keyLe (dedupFirst (classified.map recKey))
  keys.map (fun k =>
    mkStateRow k (catHours classified k StateCat.Running)
      (catHours classified k StateCat.Idle)
      (catHours classified k StateCat.Down)
      (catHours classified k StateCat.Bagged))

/-- Deduplication key of the final drop_duplicates: (ENTITY, state_date). -/
def rowKey (row : StateRow) : String × PDate := (row.ENTITY, row.state_date)

/-- `StateHoursCalculator.calculate_daily_state_hours`: the pivot
followed by drop_duplicates on (ENTITY, state_date) keeping the last. -/
def calculate_daily_state_hours (cfg : StateConfig) (currentYear : ℕ)
    (records : List StateRec) : List StateRow :=
  dedupKeepLast rowKey (pivotRows cfg currentYear records)

/-! ## Structural lemmas about the differencer stages -/

lemma applyFallback_part_replacement (cfg : WaferConfig) (current : CounterRow)
    (prevFields : Fields) (kw : String) (r : ProdResult) :
    (applyFallback cfg current prevFields kw r).part_replacement_detected
      = r.part_replacement_detected := by
  unfold applyFallback
  repeat' split
  all_goals rfl

lemma applyFallback_running_hours (cfg : WaferConfig) (current : CounterRow)
    (prevFields : Fields) (kw : String) (r : ProdResult) :
    (applyFallback cfg current prevFields kw r).running_hours = r.running_hours := by
  unfold applyFallback
  repeat' split
  all_goals rfl

lemma applyFallback_wafers_per_hour (cfg : WaferConfig) (current : CounterRow)
    (prevFields : Fields) (kw : String) (r : ProdResult) :
    (applyFallback cfg current prevFields kw r).wafers_per_hour = r.wafers_per_hour := by
  unfold applyFallback
  repeat' split
  all_goals rfl

lemma applyFallback_counter_change_some (cfg : WaferConfig) (current : CounterRow)
    (prevFields : Fields) (kw : String) (r : ProdResult) (c : ℚ)
    (h : r.counter_change = some c) :
    ∃ c2, (applyFallback cfg current prevFields kw r).counter_change = some c2 := by
  unfold applyFallback
  repeat' split
  all_goals first
    | exact ⟨_, rfl⟩
    | exact ⟨c, h⟩

lemma clampChange_part_replacement (r : ProdResult) :
    (clampChange r).part_replacement_detected = r.part_replacement_detected := by
  unfold clampChange
  repeat' split
  all_goals rfl

lemma clampChange_running_hours (r : ProdResult) :
    (clampChange r).running_hours = r.running_hours := by
  unfold clampChange
  repeat' split
  all_goals rfl

lemma clampChange_wafers_per_hour (r : ProdResult) :
    (clampChange r).wafers_per_hour = r.wafers_per_hour := by
  unfold clampChange
  repeat' split
  all_goals rfl

lemma clampChange_nonneg (r : ProdResult) (c : ℚ) (h : r.counter_change = some c) :
    ∃ c2, (clampChange r).counter_change = some c2 ∧ 0 ≤ c2 := by
  unfold clampChange
  rw [h]
  by_cases hc : c < 0
  · exact ⟨0, by simp [hc], le_refl 0⟩
  · exact ⟨c, by simp [hc, h], le_of_not_lt hc⟩

lemma finalizeWafers_part_replacement (rh : ℚ) (r : ProdResult) :
    (finalizeWafers rh r).part_replacement_detected = r.part_replacement_detected := by
  unfold finalizeWafers
  repeat' split
  all_goals rfl

lemma finalizeWafers_running_hours (rh : ℚ) (r : ProdResult) :
    (finalizeWafers rh r).running_hours = r.running_hours := by
  unfold finalizeWafers
  repeat' split
  all_goals rfl

lemma finalizeWafers_of_nonneg (rh : ℚ) (r : ProdResult) (c : ℚ)
    (h : r.counter_change = some c) (hc : 0 ≤ c) :
    (finalizeWafers rh r).counter_change = some c ∧
    (finalizeWafers rh r).wafers_produced = some c := by
  unfold finalizeWafers
  rw [h]
  simp only [hc, if_true]
  split
  · exact ⟨rfl, rfl⟩
  · exact ⟨rfl, rfl⟩

lemma finalizeWafers_wph_of_nonpos (rh : ℚ) (r : ProdResult) (h : ¬ 0 < rh) :
    (finalizeWafers rh r).wafers_per_hour = r.wafers_per_hour := by
  unfold finalizeWafers
  split
  · split
    · simp only [h, if_false]
    · rfl
  · rfl

lemma finalizeWafers_wph_changed (rh : ℚ) (r : ProdResult)
    (h : (finalizeWafers rh r).wafers_per_hour ≠ r.wafers_per_hour) : 0 < rh := by
  by_contra hrh
  exact h (finalizeWafers_wph_of_nonpos rh r hrh)

/-! ## Concrete sample data used by witnesses and counterexamples -/

set_option maxRecDepth 8000

/-- Sample configuration: one primary keyword, one fallback keyword and
the documented threshold of minus 1000. -/
def sampleCfg : WaferConfig :=
  { primary_keywords := ["Focus"]
    fallback_keywords := ["APC"]
    replacement_threshold := -1000 }

/-- Current row for the fallback scenario with a negative fallback
delta. -/
def fbCurNeg : CounterRow :=
  { ENTITY := "E1", counter_date := "d2"
    fields := [("FocusCounter", some 5), ("APCCounter", some 90)] }

/-- Previous row for both fallback scenarios. -/
def fbPrev : CounterRow :=
  { ENTITY := "E1", counter_date := "d1"
    fields := [("FocusCounter", some 2000), ("APCCounter", some 100)] }

/-- Current row for the fallback scenario with a non-negative fallback
delta. -/
def fbCurPos : CounterRow :=
  { ENTITY := "E1", counter_date := "d2"
    fields := [("FocusCounter", some 5), ("APCCounter", some 120)] }

/-! ## Claim theorems: Counter Discovery -/

/-- C1 (counterexample): on the row with fields XApcCounter = 0 and
XApcCounter2 = 50 and keyword Apc, discovery does NOT return
(XApcCounter2, 50, Apc) as the claim states; it returns not-found,
because XApcCounter2 does not end with the literal suffix Counter and
the only candidate XApcCounter has value 0. -/
theorem C1_counterexample :
    find_counter_column [("XApcCounter", some 0), ("XApcCounter2", some 50)] ["Apc"]
        ≠ some ("XApcCounter2", 50, "Apc") ∧
    find_counter_column [("XApcCounter", some 0), ("XApcCounter2", some 50)] ["Apc"] = none := by
  with_unfolding_all decide

/-- C1 (amended): Counter Discovery iterates keywords in priority order,
for each keyword considers exactly the fields whose name contains the
keyword and ends with the suffix Counter, and returns the first such
field in row order whose value is present and strictly greater than 0;
on the example row with keyword Apc it therefore returns not-found,
since XApcCounter2 lacks the Counter suffix and XApcCounter has value
0. -/
theorem C1_counter_discovery_amended :
    (∀ (fields : Fields) (kws : List String),
        find_counter_column fields kws = find_counter_column_specside fields kws) ∧
    find_counter_column [("XApcCounter", some 0), ("XApcCounter2", some 50)] ["Apc"] = none :=
  ⟨find_counter_column_eq_specside, by with_unfolding_all decide⟩

/-! ## Claim theorems: State Classifier -/

/-- C6 (counterexample): the raw value "RUN " (trailing blank) is not
equal to the bagged name, is not a member of the running set and not a
member of the idle set, so the claim maps it to Down; the code strips
whitespace first and classifies it as Running. -/
theorem C6_counterexample :
    classify_state ⟨["RUN"], ["IDLE"], "B"⟩ (some "RUN ") = StateCat.Running ∧
    "RUN " ≠ "B" ∧ "RUN " ∉ ["RUN"] ∧ "RUN " ∉ ["IDLE"] := by
  with_unfolding_all decide

/-- C6 (amended): classify returns exactly one of the four categories,
decided in the order bagged, running, idle, Down-default, with every
comparison performed on the whitespace-stripped raw value; a missing
raw state maps to Down. -/
theorem C6_classify_amended (cfg : StateConfig) (entity_state : Option String) :
    classify_state cfg entity_state = classify_state_specside cfg entity_state := by
  cases entity_state with
  | none => rfl
  | some raw =>
    by_cases h1 : raw.trim = cfg.bagged_state <;>
      by_cases h2 : raw.trim ∈ cfg.running_states <;>
        by_cases h3 : raw.trim ∈ cfg.idle_states <;>
          simp [classify_state, classify_state_specside, h1, h2, h3]

/-! ## Claim theorems: Production Differencer -/

/-- C7: on the first observed day for an entity (no previous row), a row
with a discovered counter yields a result whose current value is
populated while counter_change and wafers_produced stay null. -/
theorem C7_first_day (cfg : WaferConfig) (current : CounterRow) (running_hours : ℚ)
    (col : String) (v : ℚ) (kw : String)
    (hfind : find_counter_column current.fields
        (cfg.primary_keywords ++ cfg.fallback_keywords) = some (col, v, kw)) :
    (calculate_wafer_production_single_row cfg current none running_hours).counter_current_value
        = some v ∧
    (calculate_wafer_production_single_row cfg current none running_hours).counter_change = none ∧
    (calculate_wafer_production_single_row cfg current none running_hours).wafers_produced
        = none := by
  simp [calculate_wafer_production_single_row, hfind, baseResult]

/-- Witness for C7 at a concrete first-day row. -/
theorem C7_witness :
    find_counter_column [("FocusCounter", some 7)]
        (sampleCfg.primary_keywords ++ sampleCfg.fallback_keywords)
        = some ("FocusCounter", 7, "Focus") ∧
    ((calculate_wafer_production_single_row sampleCfg
        ⟨"E1", "d1", [("FocusCounter", some 7)]⟩ none 0).counter_current_value = some 7 ∧
     (calculate_wafer_production_single_row sampleCfg
        ⟨"E1", "d1", [("FocusCounter", some 7)]⟩ none 0).counter_change = none ∧
     (calculate_wafer_production_single_row sampleCfg
        ⟨"E1", "d1", [("FocusCounter", some 7)]⟩ none 0).wafers_produced = none) :=
  ⟨by with_unfolding_all decide,
   C7_first_day sampleCfg ⟨"E1", "d1", [("FocusCounter", some 7)]⟩ 0 "FocusCounter" 7 "Focus"
     (by with_unfolding_all decide)⟩

/-- C4: a negative change at or above the threshold is not a
replacement: the flag stays false, the negative change is retained
unclamped, no wafers are produced, and the comparison is strict, so a
change exactly equal to the threshold is not flagged. -/
theorem C4_negative_within_threshold (cfg : WaferConfig) (current prev : CounterRow)
    (running_hours : ℚ) (col : String) (v pv : ℚ) (kw : String)
    (hfind : find_counter_column current.fields
        (cfg.primary_keywords ++ cfg.fallback_keywords) = some (col, v, kw))
    (hprev : lookupField prev.fields col = some (some pv))
    (hneg : v - pv < 0) (hthr : cfg.replacement_threshold ≤ v - pv) :
    (calculate_wafer_production_single_row cfg current (some prev)
        running_hours).part_replacement_detected = false ∧
    (calculate_wafer_production_single_row cfg current (some prev)
        running_hours).counter_change = some (v - pv) ∧
    (calculate_wafer_production_single_row cfg current (some prev)
        running_hours).wafers_produced = none ∧
    detect_part_replacement cfg.replacement_threshold cfg.replacement_threshold = false := by
  have h1 : ¬(v - pv < cfg.replacement_threshold) := not_lt.mpr hthr
  have h2 : ¬(0 ≤ v - pv) := not_le.mpr hneg
  refine ⟨?_, ?_, ?_, by simp [detect_part_replacement]⟩ <;>
    simp [calculate_wafer_production_single_row, baseResult, finalizeWafers,
      detect_part_replacement, hfind, hprev, hneg, h1, h2]

/-- Witness for C4 at a drop of exactly the threshold magnitude. -/
theorem C4_witness :
    find_counter_column [("FocusCounter", some 5)]
        (sampleCfg.primary_keywords ++ sampleCfg.fallback_keywords)
        = some ("FocusCounter", 5, "Focus") ∧
    ((5 : ℚ) - 1005 < 0) ∧ (sampleCfg.replacement_threshold ≤ (5 : ℚ) - 1005) ∧
    ((calculate_wafer_production_single_row sampleCfg
        ⟨"E1", "d2", [("FocusCounter", some 5)]⟩
        (some ⟨"E1", "d1", [("FocusCounter", some 1005)]⟩) 3).part_replacement_detected = false ∧
     (calculate_wafer_production_single_row sampleCfg
        ⟨"E1", "d2", [("FocusCounter", some 5)]⟩
        (some ⟨"E1", "d1", [("FocusCounter", some 1005)]⟩) 3).counter_change
          = some ((5 : ℚ) - 1005) ∧
     (calculate_wafer_production_single_row sampleCfg
        ⟨"E1", "d2", [("FocusCounter", some 5)]⟩
        (some ⟨"E1", "d1", [("FocusCounter", some 1005)]⟩) 3).wafers_produced = none ∧
     detect_part_replacement sampleCfg.replacement_threshold
        sampleCfg.replacement_threshold = false) :=
  ⟨by with_unfolding_all decide, by with_unfolding_all decide, by with_unfolding_all decide,
   C4_negative_within_threshold sampleCfg ⟨"E1", "d2", [("FocusCounter", some 5)]⟩
     ⟨"E1", "d1", [("FocusCounter", some 1005)]⟩ 3 "FocusCounter" 5 1005 "Focus"
     (by with_unfolding_all decide) (by with_unfolding_all decide)
     (by with_unfolding_all decide) (by with_unfolding_all decide)⟩

/-- C2 (counterexample): a replacement-magnitude drop on the primary
counter with a fallback column present in both rows and a non-null
previous value, but a negative fallback delta: the claim says the result
fields are switched to the fallback; the code keeps the primary column
and clamps the change to 0 instead. -/
theorem C2_counterexample :
    find_counter_column fbCurNeg.fields sampleCfg.fallback_keywords
        = some ("APCCounter", 90, "APC") ∧
    lookupField fbPrev.fields "APCCounter" = some (some 100) ∧
    (calculate_wafer_production_single_row sampleCfg fbCurNeg
        (some fbPrev) 4).part_replacement_detected = true ∧
    (calculate_wafer_production_single_row sampleCfg fbCurNeg
        (some fbPrev) 4).counter_column_used = some "FocusCounter" ∧
    (calculate_wafer_production_single_row sampleCfg fbCurNeg
        (some fbPrev) 4).counter_keyword_used = some "Focus" ∧
    (calculate_wafer_production_single_row sampleCfg fbCurNeg
        (some fbPrev) 4).counter_change = some 0 := by
  with_unfolding_all decide

/-- C2 (amended): in fallback recovery the result fields are switched to
the fallback pair exactly when the fallback column exists in both rows
with a non-null previous value AND the recomputed fallback delta is
non-negative; in that case counter_change and wafers_produced equal the
fallback delta, not zero, and the replacement flag stays set. -/
theorem C2_fallback_recovery_amended (cfg : WaferConfig) (current prev : CounterRow)
    (running_hours : ℚ) (col fcol : String) (v pv fv pf : ℚ) (kw fkw : String)
    (hfind : find_counter_column current.fields
        (cfg.primary_keywords ++ cfg.fallback_keywords) = some (col, v, kw))
    (hprev : lookupField prev.fields col = some (some pv))
    (hneg : v - pv < 0) (hthr : v - pv < cfg.replacement_threshold)
    (hprim : cfg.primary_keywords.contains kw = true)
    (hfb : find_counter_column current.fields cfg.fallback_keywords = some (fcol, fv, fkw))
    (hfbprev : lookupField prev.fields fcol = some (some pf))
    (hfbpos : 0 ≤ fv - pf) :
    (calculate_wafer_production_single_row cfg current (some prev)
        running_hours).counter_column_used = some fcol ∧
    (calculate_wafer_production_single_row cfg current (some prev)
        running_hours).counter_keyword_used = some fkw ∧
    (calculate_wafer_production_single_row cfg current (some prev)
        running_hours).counter_current_value = some fv ∧
    (calculate_wafer_production_single_row cfg current (some prev)
        running_hours).counter_previous_value = some pf ∧
    (calculate_wafer_production_single_row cfg current (some prev)
        running_hours).counter_change = some (fv - pf) ∧
    (calculate_wafer_production_single_row cfg current (some prev)
        running_hours).part_replacement_detected = true ∧
    (calculate_wafer_production_single_row cfg current (some prev)
        running_hours).wafers_produced = some (fv - pf) := by
  have h3 : ¬(fv - pf < 0) := not_lt.mpr hfbpos
  have hmem : kw ∈ cfg.primary_keywords := by simpa using hprim
  by_cases hrh : 0 < running_hours <;>
    simp [calculate_wafer_production_single_row, baseResult, finalizeWafers, clampChange,
      applyFallback, detect_part_replacement, hfind, hprev, hneg, hthr, hmem, hfb,
      hfbprev, hfbpos, h3, hrh]

/-- Witness for C2 at a concrete fallback recovery with delta 20. -/
theorem C2_witness :
    find_counter_column fbCurPos.fields
        (sampleCfg.primary_keywords ++ sampleCfg.fallback_keywords)
        = some ("FocusCounter", 5, "Focus") ∧
    find_counter_column fbCurPos.fields sampleCfg.fallback_keywords
        = some ("APCCounter", 120, "APC") ∧
    ((calculate_wafer_production_single_row sampleCfg fbCurPos
        (some fbPrev) 4).counter_column_used = some "APCCounter" ∧
     (calculate_wafer_production_single_row sampleCfg fbCurPos
        (some fbPrev) 4).counter_keyword_used = some "APC" ∧
     (calculate_wafer_production_single_row sampleCfg fbCurPos
        (some fbPrev) 4).counter_current_value = some 120 ∧
     (calculate_wafer_production_single_row sampleCfg fbCurPos
        (some fbPrev) 4).counter_previous_value = some 100 ∧
     (calculate_wafer_production_single_row sampleCfg fbCurPos
        (some fbPrev) 4).counter_change = some ((120 : ℚ) - 100) ∧
     (calculate_wafer_production_single_row sampleCfg fbCurPos
        (some fbPrev) 4).part_replacement_detected = true ∧
     (calculate_wafer_production_single_row sampleCfg fbCurPos
        (some fbPrev) 4).wafers_produced = some ((120 : ℚ) - 100)) :=
  ⟨by with_unfolding_all decide, by with_unfolding_all decide,
   C2_fallback_recovery_amended sampleCfg fbCurPos fbPrev 4 "FocusCounter" "APCCounter"
     5 2000 120 100 "Focus" "APC"
     (by with_unfolding_all decide) (by with_unfolding_all decide)
     (by with_unfolding_all decide) (by with_unfolding_all decide)
     (by with_unfolding_all decide) (by with_unfolding_all decide)
     (by with_unfolding_all decide) (by with_unfolding_all decide)⟩

/-- C3: a drop strictly below the threshold with no usable fallback (not
a primary keyword, or no fallback column discovered, or the fallback
column missing or null in the previous row, or a negative fallback
delta) yields the replacement flag set, the change clamped to 0 and zero
wafers produced. -/
theorem C3_replacement_clamped (cfg : WaferConfig) (current prev : CounterRow)
    (running_hours : ℚ) (col : String) (v pv : ℚ) (kw : String)
    (hfind : find_counter_column current.fields
        (cfg.primary_keywords ++ cfg.fallback_keywords) = some (col, v, kw))
    (hprev : lookupField prev.fields col = some (some pv))
    (hneg : v - pv < 0) (hthr : v - pv < cfg.replacement_threshold)
    (hfail : cfg.primary_keywords.contains kw = false ∨
      find_counter_column current.fields cfg.fallback_keywords = none ∨
      (∃ fcol fv fkw,
        find_counter_column current.fields cfg.fallback_keywords = some (fcol, fv, fkw) ∧
        (lookupField prev.fields fcol = none ∨ lookupField prev.fields fcol = some none ∨
         (∃ pf, lookupField prev.fields fcol = some (some pf) ∧ fv - pf < 0)))) :
    (calculate_wafer_production_single_row cfg current (some prev)
        running_hours).part_replacement_detected = true ∧
    (calculate_wafer_production_single_row cfg current (some prev)
        running_hours).counter_change = some 0 ∧
    (calculate_wafer_production_single_row cfg current (some prev)
        running_hours).wafers_produced = some 0 := by
  rcases hfail with hkw | hfbnone | ⟨fcol, fv, fkw, hfb, hcase⟩
  · have hnm : kw ∉ cfg.primary_keywords := by simpa using hkw
    by_cases hrh : 0 < running_hours <;>
      simp [calculate_wafer_production_single_row, baseResult, finalizeWafers, clampChange,
        applyFallback, detect_part_replacement, hfind, hprev, hneg, hthr, hnm, hrh]
  · by_cases hrh : 0 < running_hours <;>
      simp [calculate_wafer_production_single_row, baseResult, finalizeWafers, clampChange,
        applyFallback, detect_part_replacement, hfind, hprev, hneg, hthr, hfbnone, hrh]
  · rcases hcase with hlk | hlk | ⟨pf, hlk, hfbneg⟩ <;>
      [skip; skip;
       exact (by
        have h4 : ¬(0 ≤ fv - pf) := not_le.mpr hfbneg
        by_cases hrh : 0 < running_hours <;>
          simp [calculate_wafer_production_single_row, baseResult, finalizeWafers, clampChange,
            applyFallback, detect_part_replacement, hfind, hprev, hneg, hthr, hfb, hlk, h4, hrh])] <;>
      by_cases hrh : 0 < running_hours <;>
        simp [calculate_wafer_production_single_row, baseResult, finalizeWafers, clampChange,
          applyFallback, detect_part_replacement, hfind, hprev, hneg, hthr, hfb, hlk, hrh]

/-- Witness for C3: primary counter resets, the fallback delta is
negative, so the change is clamped to 0 and wafers_produced is 0. -/
theorem C3_witness :
    find_counter_column fbCurNeg.fields
        (sampleCfg.primary_keywords ++ sampleCfg.fallback_keywords)
        = some ("FocusCounter", 5, "Focus") ∧
    lookupField fbPrev.fields "FocusCounter" = some (some 2000) ∧
    ((calculate_wafer_production_single_row sampleCfg fbCurNeg
        (some fbPrev) 4).part_replacement_detected = true ∧
     (calculate_wafer_production_single_row sampleCfg fbCurNeg
        (some fbPrev) 4).counter_change = some 0 ∧
     (calculate_wafer_production_single_row sampleCfg fbCurNeg
        (some fbPrev) 4).wafers_produced = some 0) :=
  ⟨by with_unfolding_all decide, by with_unfolding_all decide,
   C3_replacement_clamped sampleCfg fbCurNeg fbPrev 4 "FocusCounter" 5 2000 "Focus"
     (by with_unfolding_all decide) (by with_unfolding_all decide)
     (by with_unfolding_all decide) (by with_unfolding_all decide)
     (Or.inr (Or.inr ⟨"APCCounter", 90, "APC", by with_unfolding_all decide,
       Or.inr (Or.inr ⟨100, by with_unfolding_all decide, by with_unfolding_all decide⟩)⟩))⟩

lemma finalizeWafers_counter_change (rh : ℚ) (r : ProdResult) :
    (finalizeWafers rh r).counter_change = r.counter_change := by
  unfold finalizeWafers
  repeat' split
  all_goals rfl

lemma finalize_clamp_apply_spec (cfg : WaferConfig) (current : CounterRow)
    (prevFields : Fields) (kw : String) (r : ProdResult) (rh c : ℚ)
    (h : r.counter_change = some c) :
    ∃ c2, 0 ≤ c2 ∧
      (finalizeWafers rh (clampChange (applyFallback cfg current prevFields kw
        r))).counter_change = some c2 ∧
      (finalizeWafers rh (clampChange (applyFallback cfg current prevFields kw
        r))).wafers_produced = some c2 := by
  obtain ⟨c1, hc1⟩ := applyFallback_counter_change_some cfg current prevFields kw r c h
  obtain ⟨c2, hc2, hc2n⟩ := clampChange_nonneg _ c1 hc1
  obtain ⟨he1, he2⟩ := finalizeWafers_of_nonneg rh _ c2 hc2 hc2n
  exact ⟨c2, hc2n, he1, he2⟩

/-- C10: whenever the emitted result has the replacement flag set, its
counter_change is non-null and non-negative (a recovered fallback delta
or the clamped zero) and wafers_produced equals that change. -/
theorem C10_replacement_flag_invariant (cfg : WaferConfig) (current : CounterRow)
    (previous : Option CounterRow) (running_hours : ℚ)
    (hflag : (calculate_wafer_production_single_row cfg current previous
        running_hours).part_replacement_detected = true) :
    ∃ c, (calculate_wafer_production_single_row cfg current previous
        running_hours).counter_change = some c ∧ 0 ≤ c ∧
      (calculate_wafer_production_single_row cfg current previous
        running_hours).wafers_produced = some c := by
  rcases hf : find_counter_column current.fields
      (cfg.primary_keywords ++ cfg.fallback_keywords) with _ | ⟨col, v, kw⟩
  · rw [show (calculate_wafer_production_single_row cfg current previous
        running_hours).part_replacement_detected = false by
          simp [calculate_wafer_production_single_row, hf, baseResult]] at hflag
    cases hflag
  · cases previous with
    | none =>
      rw [show (calculate_wafer_production_single_row cfg current none
          running_hours).part_replacement_detected = false by
            simp [calculate_wafer_production_single_row, hf, baseResult]] at hflag
      cases hflag
    | some prev =>
      rcases hl : lookupField prev.fields col with _ | pv?
      · rw [show (calculate_wafer_production_single_row cfg current (some prev)
            running_hours).part_replacement_detected = false by
              simp [calculate_wafer_production_single_row, hf, hl, baseResult]] at hflag
        cases hflag
      · cases pv? with
        | none =>
          rw [show (calculate_wafer_production_single_row cfg current (some prev)
              running_hours).part_replacement_detected = false by
                simp [calculate_wafer_production_single_row, hf, hl, baseResult]] at hflag
          cases hflag
        | some pv =>
          by_cases hneg : v - pv < 0
          · by_cases hdet : v - pv < cfg.replacement_threshold
            · have hres : calculate_wafer_production_single_row cfg current (some prev)
                  running_hours =
                  finalizeWafers running_hours (clampChange (applyFallback cfg current
                    prev.fields kw
                    { ENTITY := current.ENTITY, counter_date := current.counter_date,
                      counter_column_used := some col, counter_keyword_used := some kw,
                      counter_current_value := some v, counter_previous_value := some pv,
                      counter_change := some (v - pv), part_replacement_detected := true,
                      wafers_produced := none, running_hours := running_hours,
                      wafers_per_hour := none,
                      calculation_notes := ["Part replacement: counter reset"] })) := by
                simp [calculate_wafer_production_single_row, hf, hl, baseResult,
                  detect_part_replacement, hneg, hdet]
              rw [hres]
              obtain ⟨c2, h0, h1, h2⟩ := finalize_clamp_apply_spec cfg current prev.fields kw
                { ENTITY := current.ENTITY, counter_date := current.counter_date,
                  counter_column_used := some col, counter_keyword_used := some kw,
                  counter_current_value := some v, counter_previous_value := some pv,
                  counter_change := some (v - pv), part_replacement_detected := true,
                  wafers_produced := none, running_hours := running_hours,
                  wafers_per_hour := none,
                  calculation_notes := ["Part replacement: counter reset"] }
                running_hours (v - pv) rfl
              exact ⟨c2, h1, h0, h2⟩
            · rw [show (calculate_wafer_production_single_row cfg current (some prev)
                  running_hours).part_replacement_detected = false by
                    simp [calculate_wafer_production_single_row, hf, hl, baseResult,
                      detect_part_replacement, hneg, hdet,
                      finalizeWafers_part_replacement]] at hflag
              cases hflag
          · rw [show (calculate_wafer_production_single_row cfg current (some prev)
                running_hours).part_replacement_detected = false by
                  simp [calculate_wafer_production_single_row, hf, hl, baseResult, hneg,
                    finalizeWafers_part_replacement]] at hflag
            cases hflag

/-- Witness for C10: a concrete replacement row with fallback recovery
failing, where the flag is set and change and production are 0. -/
theorem C10_witness :
    (calculate_wafer_production_single_row sampleCfg fbCurNeg
        (some fbPrev) 4).part_replacement_detected = true ∧
    (∃ c, (calculate_wafer_production_single_row sampleCfg fbCurNeg
        (some fbPrev) 4).counter_change = some c ∧ 0 ≤ c ∧
      (calculate_wafer_production_single_row sampleCfg fbCurNeg
        (some fbPrev) 4).wafers_produced = some c) :=
  ⟨by with_unfolding_all decide,
   C10_replacement_flag_invariant sampleCfg fbCurNeg (some fbPrev) 4
     (by with_unfolding_all decide)⟩

lemma singleRow_running_hours (cfg : WaferConfig) (current : CounterRow)
    (previous : Option CounterRow) (rh : ℚ) :
    (calculate_wafer_production_single_row cfg current previous rh).running_hours = rh := by
  rcases hf : find_counter_column current.fields
      (cfg.primary_keywords ++ cfg.fallback_keywords) with _ | ⟨col, v, kw⟩
  · simp [calculate_wafer_production_single_row, hf, baseResult]
  · cases previous with
    | none => simp [calculate_wafer_production_single_row, hf, baseResult]
    | some prev =>
      rcases hl : lookupField prev.fields col with _ | pv?
      · simp [calculate_wafer_production_single_row, hf, hl, baseResult]
      · cases pv? with
        | none => simp [calculate_wafer_production_single_row, hf, hl, baseResult]
        | some pv =>
          simp [calculate_wafer_production_single_row, hf, hl, baseResult,
            finalizeWafers_running_hours, clampChange_running_hours,
            applyFallback_running_hours]
          split
          · split
            · simp [clampChange_running_hours, applyFallback_running_hours]
            · rfl
          · rfl

lemma singleRow_wph_none_or_pos (cfg : WaferConfig) (current : CounterRow)
    (previous : Option CounterRow) (rh : ℚ) :
    (calculate_wafer_production_single_row cfg current previous rh).wafers_per_hour = none ∨
      0 < rh := by
  by_cases hrh : 0 < rh
  · exact Or.inr hrh
  · left
    have hw : ∀ r, (finalizeWafers rh r).wafers_per_hour = r.wafers_per_hour :=
      fun r => finalizeWafers_wph_of_nonpos rh r hrh
    rcases hf : find_counter_column current.fields
        (cfg.primary_keywords ++ cfg.fallback_keywords) with _ | ⟨col, v, kw⟩
    · simp [calculate_wafer_production_single_row, hf, baseResult]
    · cases previous with
      | none => simp [calculate_wafer_production_single_row, hf, baseResult]
      | some prev =>
        rcases hl : lookupField prev.fields col with _ | pv?
        · simp [calculate_wafer_production_single_row, hf, hl, baseResult]
        · cases pv? with
          | none => simp [calculate_wafer_production_single_row, hf, hl, baseResult]
          | some pv =>
            simp [calculate_wafer_production_single_row, hf, hl, baseResult, hw]
            split
            · split
              · simp [clampChange_wafers_per_hour, applyFallback_wafers_per_hour]
              · rfl
            · rfl

/-- C8: the running-hours lookup yields 0 when no state row matches the
entity and date; a result computed with 0 running hours carries
running_hours 0 and a null rate; and a non-null rate is only ever
produced under strictly positive running hours, so the division in the
rate is always guarded. -/
theorem C8_running_hours_guard :
    (∀ (rows : List RunningHoursRow) (e d : String),
        (∀ s ∈ rows, ¬(s.ENTITY = e ∧ s.state_date = d)) →
        lookupRunningHours rows e d = 0) ∧
    (∀ (cfg : WaferConfig) (current : CounterRow) (previous : Option CounterRow),
        (calculate_wafer_production_single_row cfg current previous 0).running_hours = 0 ∧
        (calculate_wafer_production_single_row cfg current previous 0).wafers_per_hour
          = none) ∧
    (∀ (cfg : WaferConfig) (current : CounterRow) (previous : Option CounterRow) (rh : ℚ),
        (calculate_wafer_production_single_row cfg current previous rh).wafers_per_hour
          ≠ none → 0 < rh) := by
  refine ⟨?_, ?_, ?_⟩
  · intro rows e d h
    unfold lookupRunningHours
    rw [List.find?_eq_none.mpr]
    intro s hs
    have := h s hs
    simp only [Bool.and_eq_true, beq_iff_eq]
    intro hcon
    exact this ⟨hcon.1, hcon.2⟩
  · intro cfg current previous
    refine ⟨singleRow_running_hours cfg current previous 0, ?_⟩
    rcases singleRow_wph_none_or_pos cfg current previous 0 with h | h
    · exact h
    · exact absurd h (lt_irrefl 0)
  · intro cfg current previous rh h
    rcases singleRow_wph_none_or_pos cfg current previous rh with h0 | h0
    · exact absurd h0 h
    · exact h0

/-- Witness for C8 at concrete inputs: an unmatched lookup, a zero-hours
day, and a positive-rate day forcing positive hours. -/
theorem C8_witness :
    lookupRunningHours [⟨"E2", "d1", 3⟩] "E1" "d1" = 0 ∧
    ((calculate_wafer_production_single_row sampleCfg fbCurPos
        (some fbPrev) 0).running_hours = 0 ∧
     (calculate_wafer_production_single_row sampleCfg fbCurPos
        (some fbPrev) 0).wafers_per_hour = none) ∧
    (0 : ℚ) < 4 :=
  ⟨(C8_running_hours_guard.1 [⟨"E2", "d1", 3⟩] "E1" "d1" (by with_unfolding_all decide)),
   C8_running_hours_guard.2.1 sampleCfg fbCurPos (some fbPrev),
   C8_running_hours_guard.2.2 sampleCfg fbCurPos (some fbPrev) 4
     (by with_unfolding_all decide)⟩

/-! ## Structural lemmas about last-occurrence deduplication -/

lemma mem_of_mem_dedupKeepLast [DecidableEq κ] (key : α → κ) (l : List α) :
    ∀ x ∈ dedupKeepLast key l, x ∈ l := by
  induction l with
  | nil => simp [dedupKeepLast]
  | cons a l ih =>
    intro x hx
    unfold dedupKeepLast at hx
    split at hx
    · exact List.mem_cons_of_mem a (ih x hx)
    · rcases List.mem_cons.mp hx with h | h
      · exact h ▸ List.mem_cons_self a l
      · exact List.mem_cons_of_mem a (ih x h)

lemma dedupKeepLast_pairwise [DecidableEq κ] (key : α → κ) (l : List α) :
    (dedupKeepLast key l).Pairwise (fun a b => key a ≠ key b) := by
  induction l with
  | nil => exact List.Pairwise.nil
  | cons a l ih =>
    unfold dedupKeepLast
    split
    · exact ih
    · rename_i hany
      refine List.Pairwise.cons ?_ ih
      intro y hy hkey
      exact hany (List.any_eq_true.mpr
        ⟨y, mem_of_mem_dedupKeepLast key l y hy, by simp [hkey]⟩)

lemma getLast?_cons_of_ne_nil (x : α) (t : List α) (h : t ≠ []) :
    (x :: t).getLast? = t.getLast? := by
  cases t with
  | nil => exact absurd rfl h
  | cons y ys => simp [List.getLast?_cons_cons]

lemma dedupKeepLast_filter_key [DecidableEq κ] (key : α → κ) (l : List α) (k : κ) :
    (dedupKeepLast key l).filter (fun x => decide (key x = k)) =
      ((l.filter (fun x => decide (key x = k))).getLast?).toList := by
  induction l with
  | nil => rfl
  | cons a l ih =>
    unfold dedupKeepLast
    by_cases hka : key a = k
    · have hca : ∀ t : List α, List.filter (fun x => decide (key x = k)) (a :: t)
          = a :: List.filter (fun x => decide (key x = k)) t :=
        fun t => by simp [List.filter_cons, hka]
      by_cases hany : (l.any fun y => decide (key y = key a)) = true
      · have hne : l.filter (fun x => decide (key x = k)) ≠ [] := by
          rcases List.any_eq_true.mp hany with ⟨y, hy, hpy⟩
          have h1 : key y = key a := by simpa using hpy
          intro hnil
          have hyk : key y = k := h1.trans hka
          have hmem : y ∈ l.filter (fun x => decide (key x = k)) :=
            List.mem_filter.mpr ⟨hy, by simp [hyk]⟩
          rw [hnil] at hmem
          cases hmem
        rw [if_pos hany, ih, hca, getLast?_cons_of_ne_nil _ _ hne]
      · have hnil : l.filter (fun x => decide (key x = k)) = [] := by
          rw [List.filter_eq_nil_iff]
          intro x hx
          simp only [decide_eq_true_eq]
          intro hxk
          exact hany (List.any_eq_true.mpr ⟨x, hx, by simp [hxk, hka]⟩)
        rw [if_neg hany, hca, ih, hca, hnil]
        simp
    · have hca : ∀ t : List α, List.filter (fun x => decide (key x = k)) (a :: t)
          = List.filter (fun x => decide (key x = k)) t :=
        fun t => by simp [List.filter_cons, hka]
      by_cases hany : (l.any fun y => decide (key y = key a)) = true
      · rw [if_pos hany, ih, hca]
      · rw [if_neg hany, hca, ih, hca]

lemma pivotRows_invariants (cfg : StateConfig) (currentYear : ℕ) (records : List StateRec) :
    ∀ row ∈ pivotRows cfg currentYear records,
      row.total_hours = row.running_hours + row.idle_hours + row.down_hours +
        row.bagged_hours ∧
      (row.is_bagged = true ↔ 0 < row.bagged_hours) := by
  intro row hrow
  unfold pivotRows at hrow
  rcases List.mem_map.mp hrow with ⟨k, hk, hrow⟩
  subst hrow
  exact ⟨rfl, by simp [mkStateRow]⟩

/-! ## Claim theorems: State Classifier aggregation -/

/-- C5: every emitted StateDayAggregate row has total_hours equal to the
sum of the four category hours and is_bagged true exactly when
bagged_hours is positive; the emitted rows have pairwise distinct
(entity, state_date) keys; and for each key exactly the last matching
pivot row survives deduplication. -/
theorem C5_state_day_invariants (cfg : StateConfig) (currentYear : ℕ)
    (records : List StateRec) :
    (∀ row ∈ calculate_daily_state_hours cfg currentYear records,
        row.total_hours = row.running_hours + row.idle_hours + row.down_hours +
          row.bagged_hours ∧
        (row.is_bagged = true ↔ 0 < row.bagged_hours)) ∧
    (calculate_daily_state_hours cfg currentYear records).Pairwise
        (fun a b => rowKey a ≠ rowKey b) ∧
    (∀ k : String × PDate,
        (calculate_daily_state_hours cfg currentYear records).filter
            (fun row => decide (rowKey row = k)) =
          ((pivotRows cfg currentYear records).filter
            (fun row => decide (rowKey row = k))).getLast?.toList) := by
  simp only [calculate_daily_state_hours]
  refine ⟨?_, dedupKeepLast_pairwise rowKey _, fun k => dedupKeepLast_filter_key rowKey _ k⟩
  intro row hrow
  exact pivotRows_invariants cfg currentYear records row
    (mem_of_mem_dedupKeepLast rowKey _ row hrow)

/-- Sample classifier configuration for the witnesses. -/
def sampleStateCfg : StateConfig := ⟨["RUN"], ["IDLE"], "B"⟩

/-- Sample raw state records: three records of one entity-day on fab F1,
a duplicate entity-day on fab F2 and one record with an unparseable
date. -/
def sampleStateRecs : List StateRec :=
  [⟨"E1", "F1", "F1_E1", some "RUN", 5, some "1/2/2024-S1"⟩,
   ⟨"E1", "F1", "F1_E1", some "IDLE", 3, some "1/2/2024-S2"⟩,
   ⟨"E1", "F1", "F1_E1", some "B", 2, some "1/2/2024-S2"⟩,
   ⟨"E1", "F2", "F2_E1", some "weird", 7, some "1/2/2024-S1"⟩,
   ⟨"E2", "F1", "F1_E2", none, 1, some "bad-S1"⟩]

/-- Witness for C5 on the sample batch. -/
theorem C5_witness :
    (⟨"E1", "F2", "F2_E1", ⟨2024, 1, 2⟩, 0, 0, 7, 0, 7, false⟩ : StateRow) ∈
        calculate_daily_state_hours sampleStateCfg 2025 sampleStateRecs ∧
    ((7 : ℚ) = 0 + 0 + 7 + 0 ∧ (false = true ↔ (0 : ℚ) < 0)) :=
  ⟨by with_unfolding_all decide,
   (C5_state_day_invariants sampleStateCfg 2025 sampleStateRecs).1
     ⟨"E1", "F2", "F2_E1", ⟨2024, 1, 2⟩, 0, 0, 7, 0, 7, false⟩
     (by with_unfolding_all decide)⟩

/-- C9: the date parser tries the full-year format first, then the
two-digit-year format, then the no-year format (current calendar year),
and a record whose DAY_SHIFT cannot be parsed contributes nothing to the
aggregation: it is dropped while the rest of the batch is processed (the
embedding is a total function, so no input aborts the batch). -/
theorem C9_date_parse_order_and_drop (currentYear : ℕ) :
    (∀ (s : String) (d : PDate),
        parseFullYear (datePart s) = some d →
        parse_day_shift_to_date currentYear (some s) = some d) ∧
    (∀ (s : String) (d : PDate),
        parseFullYear (datePart s) = none →
        parseTwoDigit (datePart s) = some d →
        parse_day_shift_to_date currentYear (some s) = some d) ∧
    (∀ s : String,
        parseFullYear (datePart s) = none →
        parseTwoDigit (datePart s) = none →
        parse_day_shift_to_date currentYear (some s) =
          parseNoYear currentYear (datePart s)) ∧
    (∀ (cfg : StateConfig) (r : StateRec) (records : List StateRec),
        parse_day_shift_to_date currentYear r.DAY_SHIFT = none →
        calculate_daily_state_hours cfg currentYear (r :: records) =
          calculate_daily_state_hours cfg currentYear records) := by
  refine ⟨?_, ?_, ?_, ?_⟩
  · intro s d h
    simp [parse_day_shift_to_date, h]
  · intro s d h1 h2
    simp [parse_day_shift_to_date, h1, h2]
  · intro s h1 h2
    simp [parse_day_shift_to_date, h1, h2]
  · intro cfg r records h
    simp [calculate_daily_state_hours, pivotRows, classifiedRecords,
      List.filterMap_cons, h]

/-- Witness for C9: a full-year date, a two-digit-year date picked up by
the second format, and an unparseable record dropped from the sample
batch. -/
theorem C9_witness :
    parse_day_shift_to_date 2025 (some "1/2/2024-S1") = some ⟨2024, 1, 2⟩ ∧
    parse_day_shift_to_date 2025 (some "1/2/34-S1") = some ⟨2034, 1, 2⟩ ∧
    parse_day_shift_to_date 2025 (some "12/31-S2") =
      parseNoYear 2025 (datePart "12/31-S2") ∧
    calculate_daily_state_hours sampleStateCfg 2025
        (⟨"E2", "F1", "F1_E2", none, 1, some "bad-S1"⟩ ::
          [⟨"E1", "F1", "F1_E1", some "RUN", 5, some "1/2/2024-S1"⟩]) =
      calculate_daily_state_hours sampleStateCfg 2025
        [⟨"E1", "F1", "F1_E1", some "RUN", 5, some "1/2/2024-S1"⟩] :=
  ⟨(C9_date_parse_order_and_drop 2025).1 "1/2/2024-S1" ⟨2024, 1, 2⟩
      (by with_unfolding_all decide),
   (C9_date_parse_order_and_drop 2025).2.1 "1/2/34-S1" ⟨2034, 1, 2⟩
      (by with_unfolding_all decide) (by with_unfolding_all decide),
   (C9_date_parse_order_and_drop 2025).2.2.1 "12/31-S2"
      (by with_unfolding_all decide) (by with_unfolding_all decide),
   (C9_date_parse_order_and_drop 2025).2.2.2 sampleStateCfg
      ⟨"E2", "F1", "F1_E2", none, 1, some "bad-S1"⟩
      [⟨"E1", "F1", "F1_E1", some "RUN", 5, some "1/2/2024-S1"⟩]
      (by with_unfolding_all decide)⟩

end EntityCounters
